import Mathlib

/-!
Verification of the SPTS ML service (`src/sptm/ml-service/app.py`), a Flask
application with three registered routes (`GET /ping`, `POST /api/v1/eta`,
`GET /api/v1/status`) together with JSON error handlers for 404 and 500.

The app is embedded shallowly: each handler becomes a pure Lean function.
Ambient effects are passed explicitly:
  * `env : String → Option String` models `os.getenv` (the process
    environment as observable at the moment the request is handled);
  * `now : String` models the string `datetime.now().isoformat()` produced
    at the moment the request is handled.
Flask's routing is embedded faithfully: an unmatched path yields the
registered 404 handler's JSON body; a matched path with a disallowed method
yields Werkzeug's 405 `MethodNotAllowed` default (HTML) page, since the app
registers no handler for 405; Flask automatically accepts `HEAD` and
`OPTIONS` on `GET` routes and `OPTIONS` on `POST` routes.
`request.get_json()` is embedded with its default-argument semantics
(Flask ≥ 2.2): it raises `415 UnsupportedMediaType` when the request's
Content-Type is not a JSON type, raises `400 BadRequest` when the body is
present-but-unparseable or empty, and otherwise returns the parsed value.
-/

namespace SPTS

/-- JSON values, with numbers as exact rationals (the literals occurring in
the app are `15`, `0.85` and booleans/strings). Object fields keep Python's
dict insertion order. -/
inductive Json where
  | str : String → Json
  | num : Rat → Json
  | bool : Bool → Json
  | arr : List Json → Json
  | obj : List (String × Json) → Json

/-- HTTP methods relevant to the app's routing (Flask auto-adds `HEAD` and
`OPTIONS`); any other method name is carried as a string. -/
inductive Method where
  | GET | POST | HEAD | OPTIONS
  | other : String → Method
deriving DecidableEq, Repr

/-- The state of a request body, as `request.get_json()` distinguishes it:
absent/empty, parseable JSON, or present but unparseable. -/
inductive BodyState where
  | empty : BodyState
  | validJson : Json → BodyState
  | malformed : BodyState

/-- An incoming HTTP request: method, URL path, whether the Content-Type
header names a JSON type, and the body state. -/
structure Request where
  method : Method
  path : String
  contentTypeJson : Bool
  body : BodyState

/-- A response body: a JSON document produced by `jsonify`, a
Flask/Werkzeug default error page for the given status code (the app
registers JSON handlers only for 404 and 500), or the empty body of an
automatic `HEAD`/`OPTIONS` response. -/
inductive ResponseBody where
  | json : Json → ResponseBody
  | defaultPage : Nat → ResponseBody
  | empty : ResponseBody

/-- An HTTP response: status code and body. -/
structure Response where
  status : Nat
  body : ResponseBody

/-- `request.get_json()` with default arguments (Flask ≥ 2.2): 415 when the
Content-Type is not a JSON type; 400 when the body does not parse as JSON
(an empty body does not parse); otherwise the parsed JSON value. The error
codes are raised as `HTTPException`s and short-circuit the handler. -/
def get_json (r : Request) : Except Nat Json :=
  if r.contentTypeJson then
    match r.body with
    | .validJson j => .ok j
    | .empty => .error 400
    | .malformed => .error 400
  else .error 415

/-- Handler of `GET /ping` (`def ping()` in `app.py`): a constant JSON
object except for the handling-time timestamp. -/
def ping (now : String) : Json :=
  .obj [("status", .str "OK"),
        ("message", .str "SPTM ML Service is running"),
        ("timestamp", .str now),
        ("service", .str "ml-service")]

/-- Handler of `POST /api/v1/eta` (`def calculate_eta()` in `app.py`):
calls `request.get_json()`, discards the result (`data` is never used), and
returns the constant placeholder ETA object with the handling-time
timestamp. -/
def calculate_eta (now : String) (r : Request) : Except Nat Json :=
  match get_json r with
  | .error c => .error c
  | .ok _data =>
      .ok (.obj [("eta_minutes", .num 15),
                 ("confidence", .num (85 / 100)),
                 ("factors", .arr [.str "traffic", .str "weather", .str "historical_data"]),
                 ("timestamp", .str now)])

/-- Handler of `GET /api/v1/status` (`def status()` in `app.py`):
`os.getenv('FLASK_ENV', 'development')` is embedded as
`(env "FLASK_ENV").getD "development"`. -/
def status (env : String → Option String) : Json :=
  .obj [("service", .str "SPTM ML Service"),
        ("version", .str "1.0.0"),
        ("environment", .str ((env "FLASK_ENV").getD "development")),
        ("models_loaded", .bool true)]

/-- The registered 404 handler (`def not_found(error)` in `app.py`): a JSON
body echoing `request.path`. -/
def not_found (path : String) : Response :=
  { status := 404,
    body := .json (.obj [("error", .str "Endpoint not found"),
                         ("path", .str path)]) }

/-- The registered 500 handler (`def internal_error(error)` in `app.py`): a
constant generic JSON body. -/
def internal_error : Response :=
  { status := 500,
    body := .json (.obj [("error", .str "Internal server error"),
                         ("message", .str "Something went wrong")]) }

/-- The paths with a registered route rule. -/
def registeredPaths : List String := ["/ping", "/api/v1/eta", "/api/v1/status"]

/-- The methods Flask accepts on each registered path: the declared method
plus the automatic `OPTIONS` (all routes) and `HEAD` (GET routes). -/
def allowedMethods (p : String) : List Method :=
  if p = "/ping" then [.GET, .HEAD, .OPTIONS]
  else if p = "/api/v1/eta" then [.POST, .OPTIONS]
  else if p = "/api/v1/status" then [.GET, .HEAD, .OPTIONS]
  else []

/-- Full request dispatch of the app in `app.py`: Werkzeug raises
`NotFound` when no rule matches the path (routed to the registered 404
handler) and `MethodNotAllowed` when a rule matches the path but not the
method (no registered handler, so the default 405 page); automatic
`HEAD`/`OPTIONS` responses have status 200 and an empty body; an
`HTTPException` raised inside a handler (from `get_json`) surfaces with its
own code and default page. -/
def handleRequest (env : String → Option String) (now : String) (r : Request) : Response :=
  if r.path ∈ registeredPaths then
    if r.method ∈ allowedMethods r.path then
      match r.method with
      | .OPTIONS => { status := 200, body := .empty }
      | .HEAD => { status := 200, body := .empty }
      | _ =>
        if r.path = "/ping" then { status := 200, body := .json (ping now) }
        else if r.path = "/api/v1/status" then { status := 200, body := .json (status env) }
        else
          match calculate_eta now r with
          | .ok j => { status := 200, body := .json j }
          | .error c => { status := c, body := .defaultPage c }
    else { status := 405, body := .defaultPage 405 }
  else not_found r.path

/-- Modelled from the spec: the repository's second near-duplicate service
variant is not under `src/` (only the first variant's `app.py` is); the
spec documents its `GET /health` surface as
`200, {"status":"OK","message":"SPTM ML Service is running"}`. -/
def health : Json :=
  .obj [("status", .str "OK"),
        ("message", .str "SPTM ML Service is running")]

/-- Modelled from the spec: the second variant's `POST /predict-eta`
handler; per the spec the body content is ignored and the response is
`200, {"eta_minutes":15,"confidence":0.85,"message":"ETA prediction (placeholder)"}`. -/
def predict_eta : Json :=
  .obj [("eta_minutes", .num 15),
        ("confidence", .num (85 / 100)),
        ("message", .str "ETA prediction (placeholder)")]

/-- Modelled from the spec: dispatch of the second variant's two documented
routes, with the same Flask routing conventions as the first variant. -/
def handleRequestV2 (r : Request) : Response :=
  if r.path = "/health" then
    if r.method ∈ ([.GET, .HEAD, .OPTIONS] : List Method) then
      match r.method with
      | .OPTIONS => { status := 200, body := .empty }
      | .HEAD => { status := 200, body := .empty }
      | _ => { status := 200, body := .json health }
    else { status := 405, body := .defaultPage 405 }
  else if r.path = "/predict-eta" then
    if r.method ∈ ([.POST, .OPTIONS] : List Method) then
      match r.method with
      | .OPTIONS => { status := 200, body := .empty }
      | _ => { status := 200, body := .json predict_eta }
    else { status := 405, body := .defaultPage 405 }
  else not_found r.path

/-- One served request in a process trace: the process environment and
clock reading at handling time, the request itself, and whether an
unexpected (non-HTTP) exception is raised while handling it — the
situation the registered 500 handler exists for. -/
structure RequestEvent where
  env : String → Option String
  now : String
  req : Request
  faults : Bool

/-- Handling of one event: Flask catches an unexpected fault and routes it
to the registered 500 handler `internal_error`; otherwise the request is
dispatched normally. -/
def handleEvent (e : RequestEvent) : Response :=
  if e.faults then internal_error else handleRequest e.env e.now e.req

/-- A process serving a trace of requests: each request is handled
independently and no outcome, faults included, is fatal to the process. -/
def serve (es : List RequestEvent) : List Response :=
  es.map handleEvent

/-- C1 counterexample: a POST to `/api/v1/eta` with an empty body (here
with Content-Type `application/json`) is answered 400, not 200, because
`request.get_json()` fails to parse the empty body; so it is false that
every POST with a valid-JSON-or-empty body gets the 200 ETA payload. -/
theorem eta_empty_body_not_200 :
    (handleRequest (fun _ => none) "2024-01-01T00:00:00"
        { method := .POST, path := "/api/v1/eta", contentTypeJson := true,
          body := .empty }).status = 400 ∧
    (handleRequest (fun _ => none) "2024-01-01T00:00:00"
        { method := .POST, path := "/api/v1/eta", contentTypeJson := true,
          body := .empty }).status ≠ 200 := by
  constructor <;>
    simp [handleRequest, registeredPaths, allowedMethods, calculate_eta, get_json]

/-- C1 (amended): for every POST to `/api/v1/eta` whose Content-Type is a
JSON type and whose body parses as valid JSON, the response has status 200
with `eta_minutes = 15` and `confidence = 0.85`, and does not depend on the
parsed body content; an empty body is instead rejected with 400 (JSON
Content-Type) or 415 (non-JSON Content-Type). -/
theorem eta_valid_json_fixed_response (env : String → Option String)
    (now : String) (j : Json) :
    handleRequest env now
        { method := .POST, path := "/api/v1/eta", contentTypeJson := true,
          body := .validJson j }
      = { status := 200,
          body := .json (.obj [("eta_minutes", .num 15),
                               ("confidence", .num (85 / 100)),
                               ("factors", .arr [.str "traffic", .str "weather",
                                                 .str "historical_data"]),
                               ("timestamp", .str now)]) } ∧
    (handleRequest env now
        { method := .POST, path := "/api/v1/eta", contentTypeJson := true,
          body := .empty }).status = 400 ∧
    (handleRequest env now
        { method := .POST, path := "/api/v1/eta", contentTypeJson := false,
          body := .empty }).status = 415 := by
  refine ⟨?_, ?_, ?_⟩ <;>
    simp [handleRequest, registeredPaths, allowedMethods, calculate_eta, get_json]

/-- C2: the superset of both variants' routes is served — the second
variant (spec-modelled, its file not being under `src/`) answers
`GET /health` with 200 `{"status":"OK","message":"SPTM ML Service is running"}`
and `POST /predict-eta` with 200
`{"eta_minutes":15,"confidence":0.85,"message":"ETA prediction (placeholder)"}`,
for any request body and Content-Type. -/
theorem health_and_predict_eta_routes (ct ct' : Bool) (b b' : BodyState) :
    handleRequestV2
        { method := .GET, path := "/health", contentTypeJson := ct, body := b }
      = { status := 200,
          body := .json (.obj [("status", .str "OK"),
                               ("message", .str "SPTM ML Service is running")]) } ∧
    handleRequestV2
        { method := .POST, path := "/predict-eta", contentTypeJson := ct', body := b' }
      = { status := 200,
          body := .json (.obj [("eta_minutes", .num 15),
                               ("confidence", .num (85 / 100)),
                               ("message", .str "ETA prediction (placeholder)")]) } := by
  constructor <;> simp [handleRequestV2, health, predict_eta]

/-- C3: every request whose path matches no registered route is answered
with status exactly 404 and the registered handler's JSON body, whose
`error` field is "Endpoint not found" and whose `path` field echoes the
requested path verbatim. -/
theorem unmatched_path_404 (env : String → Option String) (now : String)
    (r : Request) (h : r.path ∉ registeredPaths) :
    handleRequest env now r
      = { status := 404,
          body := .json (.obj [("error", .str "Endpoint not found"),
                               ("path", .str r.path)]) } := by
  unfold handleRequest
  rw [if_neg h]
  rfl

/-- Witness for C3 at the concrete unmatched path "/nope". -/
theorem unmatched_path_404_witness :
    handleRequest (fun _ => none) "2024-01-01T00:00:00"
        { method := .GET, path := "/nope", contentTypeJson := false, body := .empty }
      = { status := 404,
          body := .json (.obj [("error", .str "Endpoint not found"),
                               ("path", .str "/nope")]) } :=
  unmatched_path_404 (fun _ => none) "2024-01-01T00:00:00" _ (by decide)

/-- C4: every GET to `/api/v1/status` is answered 200 with the static
service object whose `environment` field is the value of `FLASK_ENV` when
set and the literal "development" otherwise (`Option.getD`), whatever the
request body and Content-Type. -/
theorem status_route_response (env : String → Option String) (now : String)
    (ct : Bool) (b : BodyState) :
    handleRequest env now
        { method := .GET, path := "/api/v1/status", contentTypeJson := ct, body := b }
      = { status := 200,
          body := .json (.obj [("service", .str "SPTM ML Service"),
                               ("version", .str "1.0.0"),
                               ("environment",
                                .str ((env "FLASK_ENV").getD "development")),
                               ("models_loaded", .bool true)]) } := by
  simp [handleRequest, registeredPaths, allowedMethods, status]

/-- C5 counterexample: the response to `GET /ping` is not a pure function
of the (route, method) pair — two requests to the same route with the same
method, handled at different clock readings, receive different bodies,
since the body embeds the handling-time timestamp. -/
theorem ping_response_depends_on_time :
    handleRequest (fun _ => none) "2024-01-01T00:00:00"
        { method := .GET, path := "/ping", contentTypeJson := false, body := .empty }
      ≠ handleRequest (fun _ => none) "2024-01-01T00:00:01"
        { method := .GET, path := "/ping", contentTypeJson := false, body := .empty } := by
  simp [handleRequest, registeredPaths, allowedMethods, ping]

/-- C5 (amended): each response is a pure function of the request, the
handling-time clock reading, and the environment as read at handling time;
in particular any two GET requests to `/api/v1/status` handled under the
same process environment receive identical responses, independent of the
clock, the request bodies, and any intervening requests. -/
theorem status_pure_in_env (env : String → Option String)
    (now now' : String) (r r' : Request)
    (hp : r.path = "/api/v1/status") (hm : r.method = .GET)
    (hp' : r'.path = "/api/v1/status") (hm' : r'.method = .GET) :
    handleRequest env now r = handleRequest env now' r' := by
  obtain ⟨m, p, ct, b⟩ := r
  obtain ⟨m', p', ct', b'⟩ := r'
  simp only at hp hm hp' hm'
  subst hp hm hp' hm'
  simp [handleRequest, registeredPaths, allowedMethods, status]

/-- Witness for C5's amended theorem: two concrete status requests with
different clocks and bodies receive the same response. -/
theorem status_pure_in_env_witness :
    handleRequest (fun _ => some "production") "2024-01-01T00:00:00"
        { method := .GET, path := "/api/v1/status", contentTypeJson := false,
          body := .empty }
      = handleRequest (fun _ => some "production") "2024-01-01T00:00:01"
        { method := .GET, path := "/api/v1/status", contentTypeJson := true,
          body := .malformed } :=
  status_pure_in_env (fun _ => some "production") _ _ _ _ rfl rfl rfl rfl

/-- C6: every GET to `/ping` is answered 200 with status "OK", the running
message, the `ml-service` service tag, and a `timestamp` field equal to the
ISO-8601 rendering of the handling time (`datetime.now().isoformat()`,
embedded as the parameter `now`). -/
theorem ping_route_response (env : String → Option String) (now : String)
    (ct : Bool) (b : BodyState) :
    handleRequest env now
        { method := .GET, path := "/ping", contentTypeJson := ct, body := b }
      = { status := 200,
          body := .json (.obj [("status", .str "OK"),
                               ("message", .str "SPTM ML Service is running"),
                               ("timestamp", .str now),
                               ("service", .str "ml-service")]) } := by
  simp [handleRequest, registeredPaths, allowedMethods, ping]

/-- C7: a request whose handling raises an unexpected fault is answered
500 with exactly the generic JSON body — which carries no request-specific
detail, being a constant — and the process keeps serving: in any trace,
each response is that of its own event alone, so later requests are
unaffected by an earlier fault. -/
theorem fault_yields_generic_500 (e : RequestEvent) (h : e.faults = true) :
    handleEvent e
      = { status := 500,
          body := .json (.obj [("error", .str "Internal server error"),
                               ("message", .str "Something went wrong")]) } ∧
    ∀ (es : List RequestEvent) (i : Nat),
      (serve es)[i]? = (es[i]?).map handleEvent := by
  constructor
  · simp [handleEvent, h, internal_error]
  · intro es i
    simp [serve]

/-- Witness for C7 at a concrete faulting event. -/
theorem fault_yields_generic_500_witness :
    handleEvent
        { env := fun _ => none, now := "2024-01-01T00:00:00",
          req := { method := .GET, path := "/ping", contentTypeJson := false,
                   body := .empty },
          faults := true }
      = { status := 500,
          body := .json (.obj [("error", .str "Internal server error"),
                               ("message", .str "Something went wrong")]) } :=
  (fault_yields_generic_500 _ rfl).1

/-- C8: a POST to `/api/v1/eta` whose body is present but not parseable as
JSON makes `request.get_json()` raise (a 400 BadRequest), and the response
status is 400 — one of the error statuses 400/415/500 — not the 200 ETA
payload. -/
theorem eta_malformed_body_rejected (env : String → Option String) (now : String) :
    get_json { method := .POST, path := "/api/v1/eta", contentTypeJson := true,
               body := .malformed }
      = .error 400 ∧
    (handleRequest env now
        { method := .POST, path := "/api/v1/eta", contentTypeJson := true,
          body := .malformed }).status = 400 ∧
    (handleRequest env now
        { method := .POST, path := "/api/v1/eta", contentTypeJson := true,
          body := .malformed }).status ≠ 200 := by
  refine ⟨rfl, ?_, ?_⟩ <;>
    simp [handleRequest, registeredPaths, allowedMethods, calculate_eta, get_json]

/-- C9: a request to a registered path with a method the route does not
accept (Flask's automatic HEAD/OPTIONS included among the accepted ones)
is answered 405 with Werkzeug's default error page — not with the JSON
ErrorResponse object, since only 404 and 500 have registered JSON
handlers. -/
theorem wrong_method_405 (env : String → Option String) (now : String)
    (r : Request) (h1 : r.path ∈ registeredPaths)
    (h2 : r.method ∉ allowedMethods r.path) :
    handleRequest env now r = { status := 405, body := .defaultPage 405 } ∧
    ∀ j, (handleRequest env now r).body ≠ ResponseBody.json j := by
  have he : handleRequest env now r = { status := 405, body := .defaultPage 405 } := by
    unfold handleRequest
    rw [if_pos h1, if_neg h2]
  refine ⟨he, fun j hj => ?_⟩
  rw [he] at hj
  exact ResponseBody.noConfusion hj

/-- Witness for C9 at the concrete request POST `/ping`. -/
theorem wrong_method_405_witness :
    handleRequest (fun _ => none) "2024-01-01T00:00:00"
        { method := .POST, path := "/ping", contentTypeJson := false, body := .empty }
      = { status := 405, body := .defaultPage 405 } :=
  (wrong_method_405 (fun _ => none) "2024-01-01T00:00:00" _ (by decide) (by decide)).1

/-- C10: no request to `/ping` or `/api/v1/status` is ever answered 500:
those handlers read no request data and build their responses from
literals, the clock string and a defaulted environment lookup, so the
internal-error branch is unreachable for these paths — whatever the
method, body, environment and clock. -/
theorem ping_status_routes_never_500 (env : String → Option String)
    (now : String) (r : Request)
    (h : r.path = "/ping" ∨ r.path = "/api/v1/status") :
    (handleRequest env now r).status ≠ 500 := by
  obtain ⟨m, p, ct, b⟩ := r
  simp only at h
  rcases h with h | h <;> subst h <;> cases m <;>
    simp [handleRequest, registeredPaths, allowedMethods, ping, status]

/-- Witness for C10 at the concrete request GET `/ping`. -/
theorem ping_status_routes_never_500_witness :
    (handleRequest (fun _ => none) "2024-01-01T00:00:00"
        { method := .GET, path := "/ping", contentTypeJson := false,
          body := .empty }).status ≠ 500 :=
  ping_status_routes_never_500 (fun _ => none) "2024-01-01T00:00:00" _ (Or.inl rfl)

end SPTS
